import Mathlib

/-!
Shallow embedding of the decision/evaluation core of the
`rest-test-params` service (`src/main.rs`, `src/types.rs`).

Modelling conventions:
  - Rust `Option<T>` becomes Lean `Option`.
  - Rust `f64` is modelled as `ℚ`: all constants in the program (10.0,
    100.0, 25.5, 30.0 and the test inputs such as 3.7) are exact decimal
    fractions, and the claims under study are about which formula the code
    applies, not about IEEE-754 rounding.
  - Rust `i32` is modelled as `ℤ`; the `into()` widening to `f64` becomes
    the cast `(· : ℚ)`.
  - A Rust panic (the `.expect(msg)` calls in `output`) is made explicit
    as the `EvalResult.panicked msg` constructor; `anyhow::Result::Err`
    becomes `EvalResult.err msg` and `Ok` becomes `EvalResult.ok`.
  - The source field `case` of `Params` is named `caseP` here because
    `case` is a Lean keyword.
-/

/-- The `Case` enum of `types.rs`: rule set selector `{B, C1, C2}`
(spec names: Base, Variant1, Variant2). -/
inductive Case where
  | B
  | C1
  | C2
deriving DecidableEq, Repr

/-- The `H` enum of `types.rs`: classification tag `{M, P, T, E}`. -/
inductive H where
  | M
  | P
  | T
  | E
deriving DecidableEq, Repr

/-- The `Params` struct of `types.rs`: six optional fields and the
optional rule-set selector (source field `case`, here `caseP`). -/
structure Params where
  a : Option Bool
  b : Option Bool
  c : Option Bool
  d : Option ℚ
  e : Option ℤ
  f : Option ℤ
  caseP : Option Case
deriving DecidableEq, Repr

/-- The `Output` struct of `types.rs`: tag `h` and computed value `k`. -/
structure Output where
  h : H
  k : ℚ
deriving DecidableEq, Repr

/-- Result of running the evaluator on one request: a successful `Output`,
a returned `anyhow` error, or a Rust panic (from `.expect`). -/
inductive EvalResult where
  | ok (o : Output)
  | err (msg : String)
  | panicked (msg : String)
deriving DecidableEq, Repr

/-- The `output` function of `main.rs` (lines 141-181), transcribed
arm by arm. Note: `p.d.expect("no D param")` runs before the match on
`h`, every `Ok` branch writes the literal tag `H::M`, and the `H::P`
branch unwraps both `e` and `f` for every rule set. -/
def output (h : H) (p : Params) (case : Case) : EvalResult :=
  match p.d with
  | none => EvalResult.panicked "no D param"
  | some d =>
    match h with
    | H.M =>
      match p.e with
      | none => EvalResult.panicked "no E param"
      | some e =>
        match case with
        | Case.C2 =>
          match p.f with
          | none => EvalResult.panicked "no F param"
          | some f => EvalResult.ok ⟨H.M, (f : ℚ) + d + d * (e : ℚ) / 100⟩
        | _ => EvalResult.ok ⟨H.M, d + d * (e : ℚ) / 10⟩
    | H.P =>
      match p.e with
      | none => EvalResult.panicked "no E param"
      | some e =>
        match p.f with
        | none => EvalResult.panicked "no F param"
        | some f =>
          match case with
          | Case.C1 => EvalResult.ok ⟨H.M, 2 * d + d * (e : ℚ) / 100⟩
          | _ => EvalResult.ok ⟨H.M, d + d * ((e : ℚ) - (f : ℚ)) / 25.5⟩
    | H.T =>
      match p.f with
      | none => EvalResult.panicked "no F param"
      | some f => EvalResult.ok ⟨H.M, d - d * (f : ℚ) / 30⟩
    | H.E => EvalResult.err "Set of parameters is not supported."

/-- The `compute` function of `main.rs` (lines 120-139): resolve the rule
set (`map_or(Case::B, ...)`), dispatch on the `(a, b, c)` triple, and call
`output` with the classification tag. -/
def compute (p : Params) : EvalResult :=
  let case := p.caseP.getD Case.B
  match case with
  | Case.B | Case.C1 =>
    match p.a, p.b, p.c with
    | some true, some true, some false => output H.M p case
    | some true, some true, some true => output H.P p case
    | some false, some true, some true => output H.T p case
    | _, _, _ => output H.E p case
  | Case.C2 =>
    match p.a, p.b, p.c with
    | some true, some true, some false => output H.M p case
    | some true, some false, some true => output H.M p case
    | some true, some true, some true => output H.P p case
    | some false, some true, some true => output H.T p case
    | _, _, _ => output H.E p case

/-- The stage-1 classification implicit in `compute`: the `H` tag that
`compute` passes to `output` for a given `(a, b, c)` triple and resolved
rule set. -/
def classify (a b c : Option Bool) (case : Case) : H :=
  match case with
  | Case.B | Case.C1 =>
    match a, b, c with
    | some true, some true, some false => H.M
    | some true, some true, some true => H.P
    | some false, some true, some true => H.T
    | _, _, _ => H.E
  | Case.C2 =>
    match a, b, c with
    | some true, some true, some false => H.M
    | some true, some false, some true => H.M
    | some true, some true, some true => H.P
    | some false, some true, some true => H.T
    | _, _, _ => H.E

/-- Whether an `EvalResult` is a successful `Output`. -/
def EvalResult.isOk : EvalResult → Bool
  | EvalResult.ok _ => true
  | _ => false

/-- Bridge: `compute` is `output` applied to the stage-1 classification
and the resolved rule set. -/
theorem compute_eq_output (p : Params) :
    compute p = output (classify p.a p.b p.c (p.caseP.getD Case.B)) p (p.caseP.getD Case.B) := by
  obtain ⟨a, b, c, d, e, f, cs⟩ := p
  rcases cs with _ | (_ | _ | _) <;>
    rcases a with _ | (_ | _) <;>
    rcases b with _ | (_ | _) <;>
    rcases c with _ | (_ | _) <;>
    rfl

/-- The stage-1 dispatch table exactly as the spec's section 4.1 writes it,
for comparison with `classify`: under Base or Variant1 the three listed
rows, under Variant2 additionally `(true, false, true) -> M`, and every
other triple (including any absent field) maps to Error. -/
def specClassify (a b c : Option Bool) (ruleSet : Case) : H :=
  if ruleSet = Case.C2 then
    if a = some true ∧ b = some true ∧ c = some false then H.M
    else if a = some true ∧ b = some false ∧ c = some true then H.M
    else if a = some true ∧ b = some true ∧ c = some true then H.P
    else if a = some false ∧ b = some true ∧ c = some true then H.T
    else H.E
  else
    if a = some true ∧ b = some true ∧ c = some false then H.M
    else if a = some true ∧ b = some true ∧ c = some true then H.P
    else if a = some false ∧ b = some true ∧ c = some true then H.T
    else H.E

/-- The stage-2 value formula table exactly as the spec's section 4.1
writes it, keyed by (outcome, ruleSet), with the integers `e`, `f`
widened before use. -/
def specValue (h : H) (ruleSet : Case) (d : ℚ) (e f : ℤ) : ℚ :=
  match h, ruleSet with
  | H.M, Case.C2 => (f : ℚ) + d + d * (e : ℚ) / 100
  | H.M, _ => d + d * (e : ℚ) / 10
  | H.P, Case.C1 => 2 * d + d * (e : ℚ) / 100
  | H.P, _ => d + d * ((e : ℚ) - (f : ℚ)) / 25.5
  | H.T, _ => d - d * (f : ℚ) / 30
  | H.E, _ => 0

/-- Helper: on the `H.E` tag, `output` checks only `d`: a panic when `d`
is absent, the hard error otherwise. -/
theorem output_E (q : Params) (cs : Case) :
    output H.E q cs = match q.d with
      | none => EvalResult.panicked "no D param"
      | some _ => EvalResult.err "Set of parameters is not supported." := by
  obtain ⟨a, b, c, d, e, f, csp⟩ := q
  cases d <;> rfl

/-- Helper: `output` reads only the `d`, `e`, `f` fields of its `Params`
argument. -/
theorem output_congr (h : H) (cs : Case) (p q : Params)
    (hd : p.d = q.d) (he : p.e = q.e) (hf : p.f = q.f) :
    output h p cs = output h q cs := by
  obtain ⟨a1, b1, c1, d1, e1, f1, cs1⟩ := p
  obtain ⟨a2, b2, c2, d2, e2, f2, cs2⟩ := q
  cases hd; cases he; cases hf
  rfl

/-- Helper: every successful result of `output` carries the tag `H.M`. -/
theorem output_tag_M (h : H) (p : Params) (cs : Case) (o : Output)
    (hok : output h p cs = EvalResult.ok o) : o.h = H.M := by
  obtain ⟨a, b, c, d, e, f, csp⟩ := p
  cases d <;> cases h <;> cases e <;> cases f <;> cases cs <;>
    simp only [output] at hok <;>
    first
      | exact EvalResult.noConfusion hok
      | (injection hok with h2; subst h2; rfl)

/-- Helper: on a non-`H.E` tag, when `d` and the fields the code actually
reads are present, `output` returns the table value under the tag `H.M`. -/
theorem output_value (h : H) (p : Params) (cs : Case) (dv : ℚ)
    (hne : h ≠ H.E) (hd : p.d = some dv)
    (he : (h = H.M ∨ h = H.P) → p.e.isSome = true)
    (hf : (h = H.P ∨ h = H.T ∨ (h = H.M ∧ cs = Case.C2)) → p.f.isSome = true) :
    output h p cs = EvalResult.ok ⟨H.M, specValue h cs dv (p.e.getD 0) (p.f.getD 0)⟩ := by
  obtain ⟨a, b, c, d, e, f, csp⟩ := p
  have hd' : d = some dv := hd
  subst hd'
  cases h with
  | E => exact absurd rfl hne
  | M =>
    obtain ⟨ev, he'⟩ := Option.isSome_iff_exists.mp (he (Or.inl rfl))
    have he'' : e = some ev := he'
    subst he''
    cases cs with
    | C2 =>
      obtain ⟨fv, hf'⟩ := Option.isSome_iff_exists.mp (hf (Or.inr (Or.inr ⟨rfl, rfl⟩)))
      have hf'' : f = some fv := hf'
      subst hf''
      rfl
    | B => rfl
    | C1 => rfl
  | P =>
    obtain ⟨ev, he'⟩ := Option.isSome_iff_exists.mp (he (Or.inr rfl))
    have he'' : e = some ev := he'
    subst he''
    obtain ⟨fv, hf'⟩ := Option.isSome_iff_exists.mp (hf (Or.inl rfl))
    have hf'' : f = some fv := hf'
    subst hf''
    cases cs <;> rfl
  | T =>
    obtain ⟨fv, hf'⟩ := Option.isSome_iff_exists.mp (hf (Or.inr (Or.inl rfl)))
    have hf'' : f = some fv := hf'
    subst hf''
    rfl

/-- Claim C1: the claim states that evaluation completes without a panic
for every `Params` value, every optional-field access being a checked
presence check. The code violates this: `output` begins with
`p.d.expect("no D param")`, so the input `a = true, b = true, c = false`
with `d` absent aborts with a panic instead of returning a failure
value. This theorem evaluates the code at that failing input. -/
theorem c1_panic_reachable :
    compute ⟨some true, some true, some false, none, some 5, some 2, none⟩ =
      EvalResult.panicked "no D param" := by decide

/-- Claim C2: the claim states that a non-Error outcome is reported in the
`h` tag of the success output. The code violates this: every `Ok` branch
of `output` writes the literal tag `H::M`. At the input
`a = false, b = true, c = true, d = 3.7, e = 5, f = 2, case = C1` the
stage-1 classification is `T`, yet the returned output carries tag `M`. -/
theorem c2_tag_collapsed :
    classify (some false) (some true) (some true) Case.C1 = H.T ∧
    compute ⟨some false, some true, some true, some 3.7, some 5, some 2, some Case.C1⟩ =
      EvalResult.ok ⟨H.M, 3.7 - 3.7 * 2 / 30⟩ ∧
    H.M ≠ H.T := by
  refine ⟨by decide, ?_, by decide⟩
  show EvalResult.ok ⟨H.M, 3.7 - 3.7 * ((2 : ℤ) : ℚ) / 30⟩ =
    EvalResult.ok ⟨H.M, 3.7 - 3.7 * 2 / 30⟩
  norm_num

/-- Claim C3 counterexample: at `a = b = c = some false` with `d` absent,
the code panics with "no D param" instead of returning the Error result
with value 0 without further field checks — `d` is examined even on the
Error path. -/
theorem c3_cex :
    compute ⟨some false, some false, some false, none, some 5, some 2, none⟩ =
      EvalResult.panicked "no D param" ∧
    compute ⟨some false, some false, some false, none, some 5, some 2, none⟩ ≠
      EvalResult.ok ⟨H.E, 0⟩ := by decide

/-- Claim C3 (amended): for every input whose `(a, b, c)` triple classifies
to Error, evaluation first checks the presence of `d` — panicking
"no D param" when `d` is absent — and otherwise returns the hard error
"Set of parameters is not supported.", never a value-0 success; `e` and
`f` are not examined (the result is invariant under changing them). -/
theorem c3_error_path (p : Params)
    (hE : classify p.a p.b p.c (p.caseP.getD Case.B) = H.E) :
    (compute p = match p.d with
        | none => EvalResult.panicked "no D param"
        | some _ => EvalResult.err "Set of parameters is not supported.") ∧
    ∀ e f : Option ℤ, compute { p with e := e, f := f } = compute p := by
  constructor
  · rw [compute_eq_output, hE, output_E]
  · intro e f
    rw [compute_eq_output, compute_eq_output, hE, output_E, output_E]

/-- Claim C3 witness: the all-false triple with `d = 1` classifies to
Error and the amended theorem applies, giving the hard error. -/
theorem c3_error_path_witness :
    compute ⟨some false, some false, some false, some 1, none, none, none⟩ =
      EvalResult.err "Set of parameters is not supported." :=
  (c3_error_path ⟨some false, some false, some false, some 1, none, none, none⟩
    (by decide)).1

/-- Claim C4: the claim states that a missing required field yields a
returned `MissingField` typed failure. The code has no typed failure for
missing fields at all: it aborts via `.expect`. At the input
`a = true, b = true, c = false, d = 1` with `e` absent (outcome `M`,
which requires `e`), the code panics with "no E param" instead of
returning a failure value. -/
theorem c4_panic_not_typed_failure :
    compute ⟨some true, some true, some false, some 1, none, some 2, none⟩ =
      EvalResult.panicked "no E param" := by decide

/-- Claim C5: stage-1 classification matches the spec's section 4.1
dispatch table exactly, for every `(a, b, c)` triple (absent fields
included) and every rule set. -/
theorem c5_classification_matches_table (a b c : Option Bool) (cs : Case) :
    classify a b c cs = specClassify a b c cs := by
  cases cs <;> rcases a with _ | (_ | _) <;> rcases b with _ | (_ | _) <;>
    rcases c with _ | (_ | _) <;> rfl

/-- Claim C6 counterexample: the spec's table requires only `e` for
outcome P under Variant1, but at
`a = b = c = some true, case = C1, d = 1, e = 5` with `f` absent — a
tabulated triple with all table-required fields present — the code panics
with "no F param" and produces no value at all, rather than the formula
value `2·d + d·e/100`. -/
theorem c6_cex :
    classify (some true) (some true) (some true) Case.C1 = H.P ∧
    compute ⟨some true, some true, some true, some 1, some 5, none, some Case.C1⟩ =
      EvalResult.panicked "no F param" ∧
    (compute ⟨some true, some true, some true, some 1, some 5, none, some Case.C1⟩).isOk
      = false := by decide

/-- Claim C6 (amended): same as the claim, except that `f` must also be
present for outcome P under Variant1 (the code reads `f` for outcome P
under every rule set): for every input with a tabulated triple, `d`
present, `e` present when the outcome is M or P, and `f` present when the
outcome is P or T or the outcome is M under Variant2, the computed value
equals the section 4.1 stage-2 formula for the (outcome, ruleSet) pair
(delivered under the collapsed tag `M`). -/
theorem c6_value_formula (p : Params) (h : H) (dv : ℚ)
    (hcl : classify p.a p.b p.c (p.caseP.getD Case.B) = h)
    (hne : h ≠ H.E)
    (hd : p.d = some dv)
    (he : (h = H.M ∨ h = H.P) → p.e.isSome = true)
    (hf : (h = H.P ∨ h = H.T ∨ (h = H.M ∧ p.caseP.getD Case.B = Case.C2)) →
      p.f.isSome = true) :
    compute p =
      EvalResult.ok ⟨H.M, specValue h (p.caseP.getD Case.B) dv (p.e.getD 0) (p.f.getD 0)⟩ := by
  rw [compute_eq_output, hcl]
  exact output_value h p (p.caseP.getD Case.B) dv hne hd he hf

/-- Claim C6 witness: the spec's scenario 1 input
`a = b = c = true, d = 3.7, e = 5, f = 2, case = C1` classifies to P and
the amended theorem yields the Variant1 P formula value
`2·3.7 + 3.7·5/100 = 7.585`. -/
theorem c6_value_formula_witness :
    compute ⟨some true, some true, some true, some 3.7, some 5, some 2, some Case.C1⟩ =
        EvalResult.ok ⟨H.M, specValue H.P Case.C1 3.7 5 2⟩ ∧
      specValue H.P Case.C1 3.7 5 2 = 7.585 :=
  ⟨c6_value_formula ⟨some true, some true, some true, some 3.7, some 5, some 2, some Case.C1⟩
      H.P 3.7 (by decide) (by decide) rfl (fun _ => rfl) (fun _ => rfl),
    by
      show 2 * (3.7 : ℚ) + 3.7 * ((5 : ℤ) : ℚ) / 100 = 7.585
      norm_num⟩

/-- Claim C7: an absent rule set behaves identically to `case = B`
(spec: ruleSet = Base), for every input. -/
theorem c7_default_ruleset (a b c : Option Bool) (d : Option ℚ) (e f : Option ℤ) :
    compute ⟨a, b, c, d, e, f, none⟩ = compute ⟨a, b, c, d, e, f, some Case.B⟩ := rfl

/-- Claim C8: evaluation is a pure deterministic function of
(outcome, ruleSet, d, e, f): two inputs agreeing on the resolved rule
set, the stage-1 classification, and the `d`, `e`, `f` fields produce
identical results (with no required-field precondition even needed). -/
theorem c8_value_deterministic (p q : Params)
    (hcs : p.caseP.getD Case.B = q.caseP.getD Case.B)
    (hcl : classify p.a p.b p.c (p.caseP.getD Case.B) =
      classify q.a q.b q.c (q.caseP.getD Case.B))
    (hd : p.d = q.d) (he : p.e = q.e) (hf : p.f = q.f) :
    compute p = compute q := by
  rw [compute_eq_output, compute_eq_output, hcl, hcs]
  exact output_congr _ _ p q hd he hf

/-- Claim C8 witness: two concrete inputs differing only in how the Base
rule set is selected (absent versus explicit) evaluate identically. -/
theorem c8_value_deterministic_witness :
    compute ⟨some true, some true, some true, some 2, some 3, some 4, none⟩ =
      compute ⟨some true, some true, some true, some 2, some 3, some 4, some Case.B⟩ :=
  c8_value_deterministic
    ⟨some true, some true, some true, some 2, some 3, some 4, none⟩
    ⟨some true, some true, some true, some 2, some 3, some 4, some Case.B⟩
    rfl rfl rfl rfl rfl

/-- Claim C9: every successful `Output` returned by `compute` carries the
tag `M` — no success ever carries `P`, `T` or `E`. -/
theorem c9_success_tag_always_M (p : Params) (o : Output)
    (hok : compute p = EvalResult.ok o) : o.h = H.M := by
  rw [compute_eq_output] at hok
  exact output_tag_M _ p _ o hok

/-- Claim C9 witness: the concrete success at
`a = b = true, c = false, d = 1, e = 1, f = 1` has tag `M`. -/
theorem c9_success_tag_always_M_witness :
    (Output.mk H.M (1 + 1 * ((1 : ℤ) : ℚ) / 10)).h = H.M :=
  c9_success_tag_always_M ⟨some true, some true, some false, some 1, some 1, some 1, none⟩
    ⟨H.M, 1 + 1 * ((1 : ℤ) : ℚ) / 10⟩ rfl

/-- Claim C10: for every input whose triple is untabulated for the
resolved rule set and whose `d` is present, `compute` returns the hard
error "Set of parameters is not supported." (never a value-0 success);
and the `d` presence check precedes this path: the same input with `d`
removed panics instead of reaching the hard error. -/
theorem c10_err_requires_d (p : Params) (dv : ℚ)
    (hE : classify p.a p.b p.c (p.caseP.getD Case.B) = H.E)
    (hd : p.d = some dv) :
    compute p = EvalResult.err "Set of parameters is not supported." ∧
    compute { p with d := none } = EvalResult.panicked "no D param" := by
  constructor
  · rw [compute_eq_output, hE, output_E, hd]
  · have hE2 : classify ({ p with d := none }).a ({ p with d := none }).b
        ({ p with d := none }).c (({ p with d := none }).caseP.getD Case.B) = H.E := hE
    rw [compute_eq_output, hE2, output_E]

/-- Claim C10 witness: the untabulated triple
`a = true, b = false, c = false` under Variant1 with `d = 2` yields the
hard error, and with `d` removed it panics. -/
theorem c10_err_requires_d_witness :
    compute ⟨some true, some false, some false, some 2, none, none, some Case.C1⟩ =
        EvalResult.err "Set of parameters is not supported." ∧
      compute ⟨some true, some false, some false, none, none, none, some Case.C1⟩ =
        EvalResult.panicked "no D param" :=
  c10_err_requires_d
    ⟨some true, some false, some false, some 2, none, none, some Case.C1⟩ 2 (by decide) rfl
